import Mathlib

/-!
# go-grpc-server-shop: certificate watcher, TLS bootstrap and in-memory repository

A shallow embedding of `internal/cert/watcher.go`, `cmd/root.go` and
`internal/repository/repository.go`.

* Heap objects mutated through a pointer receiver (`*Watcher`, `*InMemoryRepo`)
  become explicit state passing.
* The world outside the process (filesystem, fsnotify, logger, goroutines) is the
  record `cert.Sys`; the outcome of every external call that can fail is an input.
* Go's `(value, error)` results are pairs of options: `none` is `nil`.
-/

/-- File contents and PEM blocks as byte lists. -/
abbrev Bytes := List Nat

/-- A filesystem: the content of every path that exists. -/
abbrev FS := String → Option Bytes

/-- Go `error` values: a base error, or an error wrapping a cause (`%w`, `errors.Wrap`). -/
inductive Error where
  | base (msg : String)
  | wrap (msg : String) (cause : Error)
deriving DecidableEq, Repr

/-- Severity of a log call. -/
inductive Level where
  | info
  | debug
  | error
deriving DecidableEq, Repr

/-- One call to the logger: severity, format string, and the error argument if any. -/
structure LogLine where
  level : Level
  format : String
  err : Option Error
deriving DecidableEq, Repr

/-- `os.ReadFile`: the content of an existing path, an error otherwise. -/
def ReadFile (fs : FS) (name : String) : Except Error Bytes :=
  match fs name with
  | some b => .ok b
  | none => .error (.base ("open " ++ name ++ ": no such file or directory"))

/-- `os.Create` followed by `Close`, on success: the path exists and is empty. -/
def createFile (fs : FS) (name : String) : FS :=
  fun p => if p = name then some [] else fs p

namespace tls

/-- Go `tls.Certificate`: the certificate chain and the private key of one loaded pair. -/
structure Certificate where
  Certificate : List Bytes
  PrivateKey : Bytes
deriving DecidableEq, Repr

/-- The parsing routines of `crypto/tls` and `crypto/x509`, taken as parameters:
`X509KeyPair` parses a PEM pair, `parseCertsPEM` yields the certificates that
`CertPool.AppendCertsFromPEM` manages to parse out of a PEM blob. -/
structure Lib where
  X509KeyPair : Bytes → Bytes → Except Error Certificate
  parseCertsPEM : Bytes → List Bytes

/-- `tls.LoadX509KeyPair`: read both files, then parse the pair. -/
def LoadX509KeyPair (lib : Lib) (fs : FS) (certFile keyFile : String) :
    Except Error Certificate :=
  match ReadFile fs certFile with
  | .error err => .error err
  | .ok certPEMBlock =>
    match ReadFile fs keyFile with
    | .error err => .error err
    | .ok keyPEMBlock => lib.X509KeyPair certPEMBlock keyPEMBlock

/-- Go `tls.ClientAuthType`. -/
inductive ClientAuthType where
  | NoClientCert
  | RequestClientCert
  | RequireAnyClientCert
  | VerifyClientCertIfGiven
  | RequireAndVerifyClientCert
deriving DecidableEq, Repr

end tls

namespace x509

/-- Go `x509.CertPool`: the certificates it holds. -/
structure CertPool where
  certs : List Bytes
deriving DecidableEq, Repr

/-- `x509.NewCertPool`. -/
def NewCertPool : CertPool := ⟨[]⟩

/-- `CertPool.AppendCertsFromPEM`: adds every certificate parsed from the blob and
reports whether at least one was parsed. -/
def CertPool.AppendCertsFromPEM (lib : tls.Lib) (cp : CertPool) (b : Bytes) : CertPool × Bool :=
  let parsed := lib.parseCertsPEM b
  (⟨cp.certs ++ parsed⟩, !parsed.isEmpty)

end x509

namespace fsnotify

/-- Go `fsnotify.Op`: a bit set of file operations. -/
abbrev Op := Nat

def Create : Op := 1
def Write : Op := 2
def Remove : Op := 4
def Rename : Op := 8
def Chmod : Op := 16

/-- `Op.Has`: the operation set `o` includes the operation `h`. -/
def Op.Has (o h : Op) : Bool := o &&& h == h

/-- Go `fsnotify.Event`. -/
structure Event where
  Name : String
  Op : Op
deriving DecidableEq, Repr

/-- Go `fsnotify.Watcher`, seen from outside: the paths it holds a watch on and
whether it has been closed. -/
structure Watcher where
  watched : List String
  closed : Bool
deriving DecidableEq, Repr

/-- A successful `Watcher.Add`. -/
def Watcher.add (fw : Watcher) (name : String) : Watcher :=
  if name ∈ fw.watched then fw else { fw with watched := fw.watched ++ [name] }

end fsnotify

namespace cert

/-- Go `cert.Watcher` without its mutex and logger: `keyPair`, `watcher` and `stop` are
pointers or channels, `none` is `nil`. A stop channel is named by its creation index. -/
structure Watcher where
  CertFile : String
  KeyFile : String
  keyPair : Option tls.Certificate
  watcher : Option fsnotify.Watcher
  stop : Option Nat

/-- External calls made by the watcher, in the order they are made. -/
inductive Call where
  | NewWatcher
  | Add (name : String)
  | LoadX509KeyPair (certFile keyFile : String)
  | Create (name : String)
  | Close (name : String)
  | WatcherClose
deriving DecidableEq, Repr

/-- The watcher together with the world it acts on: the filesystem, the lines logged,
the external calls made, the number of channels created by `make` and the number of
live `run` goroutines. -/
structure Sys where
  w : Watcher
  fs : FS
  log : List LogLine
  calls : List Call
  chans : Nat
  loops : Nat

def Sys.Infof (s : Sys) (format : String) : Sys :=
  { s with log := s.log ++ [⟨.info, format, none⟩] }

def Sys.Debugf (s : Sys) (format : String) (err : Option Error) : Sys :=
  { s with log := s.log ++ [⟨.debug, format, err⟩] }

def Sys.Errorf (s : Sys) (format : String) (err : Option Error) : Sys :=
  { s with log := s.log ++ [⟨.error, format, err⟩] }

def Sys.call (s : Sys) (c : Call) : Sys :=
  { s with calls := s.calls ++ [c] }

/-- `w.watcher.Add(name)` with the given outcome: on success the path is watched. -/
def watcherAdd (s : Sys) (name : String) (outcome : Option Error) : Sys × Option Error :=
  let s := s.call (.Add name)
  match outcome with
  | some err => (s, some err)
  | none => ({ s with w := { s.w with watcher := s.w.watcher.map (fun fw => fw.add name) } }, none)

/-- `Watcher.load`: a pair that fails to load leaves `keyPair` as it is. -/
def load (lib : tls.Lib) (s : Sys) : Sys × Option Error :=
  let s := s.call (.LoadX509KeyPair s.w.CertFile s.w.KeyFile)
  match tls.LoadX509KeyPair lib s.fs s.w.CertFile s.w.KeyFile with
  | .error err => (s, some err)
  | .ok keyPair =>
    (({ s with w := { s.w with keyPair := some keyPair } }).Infof "certificate and key loaded", none)

/-- Outcomes of the external calls of `Watch`. -/
structure WatchEnv where
  newWatcherErr : Option Error
  addCertErr : Option Error
  addKeyErr : Option Error

/-- `Watcher.Watch`. -/
def Watch (lib : tls.Lib) (env : WatchEnv) (s : Sys) : Sys × Option Error :=
  let s := s.call .NewWatcher
  match env.newWatcherErr with
  | some err =>
    ({ s with w := { s.w with watcher := none } }, some (.wrap "can't create watcher" err))
  | none =>
    let s := { s with w := { s.w with watcher := some ⟨[], false⟩ } }
    match watcherAdd s s.w.CertFile env.addCertErr with
    | (s, some err) => (s, some (.wrap "can't watch cert file" err))
    | (s, none) =>
      match watcherAdd s s.w.KeyFile env.addKeyErr with
      | (s, some err) => (s, some (.wrap "can't watch key file" err))
      | (s, none) =>
        match load lib s with
        | (s, some err) => (s, some (.wrap "can't load cert or key file" err))
        | (s, none) =>
          ({ s with w := { s.w with stop := some s.chans }, chans := s.chans + 1,
                    loops := s.loops + 1 }, none)

/-- Outcomes of the external calls made while one event is handled, and the filesystem
as it stands when the event is handled. -/
structure EventEnv where
  fs : FS
  createErr : Option Error
  closeErr : Option Error
  addErr : Option Error

/-- `Watcher.respawnFile`. -/
def respawnFile (env : EventEnv) (s : Sys) (filepath : String) : Sys × Option Error :=
  let s := s.call (.Create filepath)
  match env.createErr with
  | some err => (s, some err)
  | none => (({ s with fs := createFile s.fs filepath }).call (.Close filepath), env.closeErr)

/-- What the `select` of `run` receives. -/
inductive Msg where
  | stop
  | event (ev : fsnotify.Event) (env : EventEnv)
  | error (err : Error)

/-- The message is the stop signal. -/
def Msg.isStop : Msg → Bool
  | .stop => true
  | _ => false

/-- The `case event := <-w.watcher.Events` branch of `run` up to the reload: the event
is logged and, when its `Op` equals `Remove`, the file is respawned and watched again. -/
def repair (s : Sys) (ev : fsnotify.Event) (env : EventEnv) : Sys :=
  let s := ({ s with fs := env.fs }).Debugf "watch event: %v" none
  if ev.Op = fsnotify.Remove then
    let s :=
      match respawnFile env s ev.Name with
      | (s, some err) => s.Debugf "can't re-spawn file: %v" (some err)
      | (s, none) => s
    match watcherAdd s ev.Name env.addErr with
    | (s, some err) => s.Debugf "can't re-add watch: %v" (some err)
    | (s, none) => s
  else s

/-- The whole `case event := <-w.watcher.Events` branch of `run`: `repair`, then the
reload, whose failure is logged. -/
def onEvent (lib : tls.Lib) (s : Sys) (ev : fsnotify.Event) (env : EventEnv) : Sys :=
  match load lib (repair s ev env) with
  | (s, some err) => s.Errorf "can't load cert or key file: %v" (some err)
  | (s, none) => s

/-- The `case <-w.stop` branch of `run`: log, close the subscription, return. -/
def onStop (s : Sys) : Sys :=
  let s := (s.Infof "stopped watching").call .WatcherClose
  { s with w := { s.w with watcher := s.w.watcher.map (fun fw => { fw with closed := true }) },
           loops := s.loops - 1 }

/-- `Watcher.run` fed with what its `select` receives, in order: it returns on the stop
signal and consumes nothing afterwards; with nothing left to receive it stays blocked. -/
def run (lib : tls.Lib) : Sys → List Msg → Sys
  | s, [] => s
  | s, .stop :: _ => onStop s
  | s, .event ev env :: ms => run lib (onEvent lib s ev env) ms
  | s, .error err :: ms => run lib (s.Debugf "error watching files: %v" (some err)) ms

/-- `Watcher.Stop`: a send on the unbuffered channel `w.stop`. The send completes only
when a `run` loop receives it in its `case <-w.stop`; `none` means that no loop is left
to receive, so the call blocks for ever. -/
def Stop (lib : tls.Lib) (s : Sys) : Option Sys :=
  if s.w.stop.isSome ∧ 0 < s.loops then some (run lib s [.stop]) else none

/-- `Watcher.getCertificate`. -/
def getCertificate (w : Watcher) : Option tls.Certificate := w.keyPair

end cert

namespace tls

/-- Go `tls.Config`, the fields this program sets. `GetCertificate` is a closure over a
`*cert.Watcher`: it is applied to the state of that watcher at the time of the call. -/
structure Config where
  Certificates : List Certificate
  GetCertificate : Option (cert.Watcher → Option Certificate × Option Error)
  ClientAuth : ClientAuthType
  ClientCAs : Option x509.CertPool

end tls

namespace cert

/-- `Watcher.TLSConfig`. -/
def TLSConfig : tls.Config :=
  { Certificates := []
    GetCertificate := some (fun w => (getCertificate w, none))
    ClientAuth := .NoClientCert
    ClientCAs := none }

end cert

namespace server

/-- Go `server.Config`: the gRPC server options. -/
structure Config where
  Address : String
  CertFilename : String
  KeyFilename : String
  ClientCACert : String
  ReflectionAPIEnabled : Bool
  TraceEnabled : Bool
deriving DecidableEq, Repr

end server

namespace config

/-- Go `config.Servers`. -/
structure Servers where
  Grpc : server.Config
deriving DecidableEq, Repr

/-- Go `config.Configuration`. -/
structure Configuration where
  Server : Servers
deriving DecidableEq, Repr

end config

namespace cmd

/-- `createSrvTlsCfg`: the key pair is loaded once and stored in `Certificates`. The last
component is the log after the call. -/
def createSrvTlsCfg (lib : tls.Lib) (fs : FS) (cfg : config.Configuration)
    (log : List LogLine) : (Option tls.Config × Option Error) × List LogLine :=
  match tls.LoadX509KeyPair lib fs cfg.Server.Grpc.CertFilename cfg.Server.Grpc.KeyFilename with
  | .error err => ((none, some err), log)
  | .ok srvKP =>
    ((some { Certificates := [srvKP], GetCertificate := none,
             ClientAuth := .NoClientCert, ClientCAs := none }, none),
     log ++ [⟨.info, "certificate and key loaded", none⟩])

/-- `loadClientCACerts`. -/
def loadClientCACerts (lib : tls.Lib) (fs : FS) (cfg : config.Configuration)
    (log : List LogLine) : (Option x509.CertPool × Option Error) × List LogLine :=
  let log := log ++ [⟨.info, "Loading CA certificate for gRPC from path '%v'.", none⟩]
  match ReadFile fs cfg.Server.Grpc.ClientCACert with
  | .error err => ((none, some (.wrap "client CA certificate read" err)), log)
  | .ok b =>
    let cp := x509.NewCertPool
    match cp.AppendCertsFromPEM lib b with
    | (_, false) => ((none, some (.base "failed to append client CA certificate")), log)
    | (cp, true) => ((some cp, none), log)

/-- `createMTLSCfg`. -/
def createMTLSCfg (lib : tls.Lib) (fs : FS) (cfg : config.Configuration)
    (log : List LogLine) : (Option tls.Config × Option Error) × List LogLine :=
  match createSrvTlsCfg lib fs cfg log with
  | ((_, some err), log) => ((none, some err), log)
  | ((srvTlsCfg, none), log) =>
    match loadClientCACerts lib fs cfg log with
    | ((_, some err), log) => ((none, some err), log)
    | ((cp, none), log) =>
      let tlsCfg := srvTlsCfg
      let tlsCfg := tlsCfg.map (fun c => { c with ClientAuth := .RequireAndVerifyClientCert })
      let tlsCfg := tlsCfg.map (fun c => { c with ClientCAs := cp })
      ((tlsCfg, none), log)

end cmd

namespace proto

/-- Go `proto.Item`; `Price` is carried as the bit pattern of the float, the program
never computes with it. -/
structure Item where
  Id : String
  Name : String
  Price : Nat
deriving DecidableEq, Repr

/-- `(*Item).GetId`: the id, or the empty string on a nil pointer. -/
def Item.GetId : Option Item → String
  | none => ""
  | some i => i.Id

end proto

namespace repository

/-- `NotFoundErr`. -/
def NotFoundErr : Error := .base "Item not found"

/-- Go `items`, a `map[string]*proto.Item`: `none` is the nil map, otherwise the value
(a pointer, possibly nil) stored under every key that is present. -/
abbrev items := Option (String → Option (Option proto.Item))

/-- Go `InMemoryRepo` without its lock. -/
structure InMemoryRepo where
  items : items

/-- `r.items[id]` in its two-result form: the value and whether the key is present. -/
def InMemoryRepo.lookup (r : InMemoryRepo) (id : String) : Option (Option proto.Item) :=
  match r.items with
  | none => none
  | some m => m id

/-- `NewInMemoryRepo`. -/
def NewInMemoryRepo : InMemoryRepo := ⟨some (fun _ => none)⟩

/-- `InMemoryRepo.Get`: the pair returned, and the repository after the call. -/
def InMemoryRepo.Get (r : InMemoryRepo) (id : String) :
    (Option proto.Item × Option Error) × InMemoryRepo :=
  match r.lookup id with
  | none => ((none, some NotFoundErr), r)
  | some z => ((z, none), r)

/-- `InMemoryRepo.Upsert`: the pair returned and the repository after the call; `none`
is the run-time panic Go raises on an assignment to an entry of the nil map. -/
def InMemoryRepo.Upsert (r : InMemoryRepo) (i : Option proto.Item) :
    Option ((Option proto.Item × Option Error) × InMemoryRepo) :=
  match r.items with
  | none => none
  | some m =>
    some ((i, none), ⟨some (fun k => if k = proto.Item.GetId i then some i else m k)⟩)

/-- `InMemoryRepo.Remove`: the error returned and the repository after the call;
`delete` on the nil map does nothing. -/
def InMemoryRepo.Remove (r : InMemoryRepo) (id : String) : Option Error × InMemoryRepo :=
  (none, ⟨r.items.map (fun m k => if k = id then none else m k)⟩)

end repository

namespace errors

/-- The chain walk of `errors.Is` on a non-nil error: the error or one of its causes
is the target. Errors are compared as values here, by identity in Go; the repository
returns no error but `NotFoundErr`. -/
def isInChain (target : Error) : Error → Bool
  | .base msg => decide (Error.base msg = target)
  | .wrap msg cause => decide (Error.wrap msg cause = target) || isInChain target cause

/-- `errors.Is`; a nil error is no error at all. -/
def Is (err : Option Error) (target : Error) : Bool :=
  match err with
  | none => false
  | some e => isInChain target e

end errors

namespace codes

/-- Go `codes.Code` of gRPC. -/
inductive Code where
  | OK
  | Canceled
  | Unknown
  | InvalidArgument
  | DeadlineExceeded
  | NotFound
  | AlreadyExists
  | PermissionDenied
  | ResourceExhausted
  | FailedPrecondition
  | Aborted
  | OutOfRange
  | Unimplemented
  | Internal
  | Unavailable
  | DataLoss
  | Unauthenticated
deriving DecidableEq, Repr

end codes

namespace service

/-- The `error` values `ShopService` returns: a gRPC status error built by
`status.Errorf`, with its code and message, or an error of the repository passed on. -/
inductive SvcError where
  | status (code : codes.Code) (msg : String)
  | plain (err : Error)
deriving DecidableEq, Repr

/-- Go `ShopService` with its `ItemsRepo` interface held by an `InMemoryRepo`. -/
structure ShopService where
  ItemsRepo : repository.InMemoryRepo

/-- `ShopService.Update`: the pair returned, the service and the log after the call;
`none` is a panic. `Sprintf` is `fmt.Sprintf`, taken as a parameter; `status.Errorf`
formats its message with it once more. -/
def ShopService.Update (Sprintf : String → List String → String) (s : ShopService)
    (log : List LogLine) (i : Option proto.Item) :
    Option ((Option proto.Item × Option SvcError) × ShopService × List LogLine) :=
  let log := log ++ [⟨.info, "Update item request '%+v'.", none⟩]
  match s.ItemsRepo.Get (proto.Item.GetId i) with
  | ((_, err), repo) =>
    if errors.Is err repository.NotFoundErr then
      some ((none, some (.status .InvalidArgument
        (Sprintf (Sprintf "Item with id '%s' doesn't exist." [proto.Item.GetId i]) []))),
        ⟨repo⟩, log)
    else
      match repo.Upsert i with
      | none => none
      | some ((_, some err), repo) => some ((none, some (.plain err)), ⟨repo⟩, log)
      | some ((i, none), repo) => some ((i, none), ⟨repo⟩, log)

end service

/-! ## Specification-side definitions -/

namespace cert

/-- The filesystem the reload of one event reads: the one found when the event is
handled, with the removed file respawned when that was done. -/
def fsAtLoad (ev : fsnotify.Event) (env : EventEnv) : FS :=
  if ev.Op = fsnotify.Remove ∧ env.createErr = none then createFile env.fs ev.Name else env.fs

/-- The result of the most recent load that succeeded among the events the loop
consumed, starting from the credential `c`; nothing is consumed after the stop signal. -/
def lastLoaded (lib : tls.Lib) (certFile keyFile : String) :
    tls.Certificate → List Msg → tls.Certificate
  | c, [] => c
  | c, .stop :: _ => c
  | c, .event ev env :: ms =>
    match tls.LoadX509KeyPair lib (fsAtLoad ev env) certFile keyFile with
    | .ok c1 => lastLoaded lib certFile keyFile c1 ms
    | .error _ => lastLoaded lib certFile keyFile c ms
  | c, .error _ :: ms => lastLoaded lib certFile keyFile c ms

end cert

/-! ## Concrete inputs -/

namespace demo

/-- A stand-in for the PEM parsers: a pair is well formed when the certificate block is
not empty and the key block is its reverse; every non-empty blob holds one certificate. -/
def lib : tls.Lib where
  X509KeyPair := fun c k =>
    if c ≠ [] ∧ k = c.reverse then .ok ⟨[c], k⟩
    else .error (.base "tls: failed to find any PEM data in certificate input")
  parseCertsPEM := fun b => if b = [] then [] else [b]

/-- No file exists. -/
def fsEmpty : FS := fun _ => none

/-- Both files exist and hold the pair built from `c`. -/
def fsPair (c : Bytes) : FS := fun p =>
  if p = "server.crt" then some c else if p = "server.key" then some c.reverse else none

/-- Both files exist, the certificate file holds bytes the key does not match. -/
def fsBad : FS := fun p =>
  if p = "server.crt" then some [9] else if p = "server.key" then some [7, 7] else none

/-- A watcher that has not been started. -/
def fresh (fs : FS) : cert.Sys :=
  { w := { CertFile := "server.crt", KeyFile := "server.key", keyPair := none,
           watcher := none, stop := none },
    fs := fs, log := [], calls := [], chans := 0, loops := 0 }

/-- Every external call of `Watch` succeeds. -/
def watchOk : cert.WatchEnv := ⟨none, none, none⟩

/-- The state after a successful `Watch` on the pair built from `[1, 2]`. -/
def started : cert.Sys := (cert.Watch lib watchOk (fresh (fsPair [1, 2]))).1

/-- An event handled on filesystem `fs`, every external call succeeding. -/
def envOk (fs : FS) : cert.EventEnv := ⟨fs, none, none, none⟩

/-- The certificate file has been removed, the key file is still there. -/
def fsKeyOnly : FS := fun p => if p = "server.key" then some [2, 1] else none

/-- The server pair built from `c` and a client CA bundle. -/
def fsServer (c : Bytes) : FS := fun p =>
  if p = "ca.crt" then some [8] else fsPair c p

/-- The server pair built from `c`, the client CA bundle being empty. -/
def fsServerNoCA (c : Bytes) : FS := fun p =>
  if p = "ca.crt" then some [] else fsPair c p

/-- A configuration naming the files above. -/
def cfg : config.Configuration :=
  ⟨⟨{ Address := "localhost:8443", CertFilename := "server.crt", KeyFilename := "server.key",
      ClientCACert := "ca.crt", ReflectionAPIEnabled := true, TraceEnabled := false }⟩⟩

/-- The items of the repository tests. -/
def i1 : proto.Item := ⟨"id-1", "name-1", 11⟩

def i2 : proto.Item := ⟨"id-2", "name-2", 22⟩

/-- The repository of the tests: `id-1` and `id-2` are stored. -/
def repo : repository.InMemoryRepo :=
  ⟨some (fun id => if id = "id-1" then some (some i1)
    else if id = "id-2" then some (some i2) else none)⟩

/-- The zero value `InMemoryRepo{}`: its map is nil. -/
def repoZero : repository.InMemoryRepo := ⟨none⟩

/-- An update of `id-1`. -/
def i1Updated : proto.Item := ⟨"id-1", "updated-1", 55⟩

/-- An item whose id is not stored in `repo`. -/
def i3 : proto.Item := ⟨"id-3", "name-3", 33⟩

/-- A stand-in for `fmt.Sprintf`: the format followed by its arguments. -/
def Sprintf (format : String) (args : List String) : String :=
  String.join (format :: args)

end demo

/-! ## Lemmas on the watcher -/

namespace cert

theorem load_error (lib : tls.Lib) (s : Sys) (err : Error)
    (h : tls.LoadX509KeyPair lib s.fs s.w.CertFile s.w.KeyFile = .error err) :
    load lib s = (s.call (.LoadX509KeyPair s.w.CertFile s.w.KeyFile), some err) := by
  simp [load, Sys.call, h]

theorem load_ok (lib : tls.Lib) (s : Sys) (kp : tls.Certificate)
    (h : tls.LoadX509KeyPair lib s.fs s.w.CertFile s.w.KeyFile = .ok kp) :
    load lib s =
      (({ s.call (.LoadX509KeyPair s.w.CertFile s.w.KeyFile) with
            w := { s.w with keyPair := some kp } }).Infof "certificate and key loaded", none) := by
  simp [load, Sys.call, h]

/-- The repair step touches neither the credential, the paths, the stop channel nor
the goroutine count. -/
theorem repair_frame (s : Sys) (ev : fsnotify.Event) (env : EventEnv) :
    (repair s ev env).w.keyPair = s.w.keyPair ∧
    (repair s ev env).w.CertFile = s.w.CertFile ∧
    (repair s ev env).w.KeyFile = s.w.KeyFile ∧
    (repair s ev env).w.stop = s.w.stop ∧
    (repair s ev env).chans = s.chans ∧
    (repair s ev env).loops = s.loops := by
  unfold repair
  cases hc : env.createErr <;> cases hl : env.closeErr <;> cases ha : env.addErr <;>
    by_cases hop : ev.Op = fsnotify.Remove <;>
    simp [respawnFile, watcherAdd, Sys.Debugf, Sys.call, hc, hl, ha, hop]

/-- The reload of an event reads the filesystem `fsAtLoad`. -/
theorem repair_fs (s : Sys) (ev : fsnotify.Event) (env : EventEnv) :
    (repair s ev env).fs = fsAtLoad ev env := by
  unfold repair fsAtLoad
  cases hc : env.createErr <;> cases hl : env.closeErr <;> cases ha : env.addErr <;>
    by_cases hop : ev.Op = fsnotify.Remove <;>
    simp [respawnFile, watcherAdd, Sys.Debugf, Sys.call, hc, hl, ha, hop]

/-- Handling an event touches neither the paths, the stop channel nor the goroutine count. -/
theorem onEvent_frame (lib : tls.Lib) (s : Sys) (ev : fsnotify.Event) (env : EventEnv) :
    (onEvent lib s ev env).w.CertFile = s.w.CertFile ∧
    (onEvent lib s ev env).w.KeyFile = s.w.KeyFile ∧
    (onEvent lib s ev env).w.stop = s.w.stop ∧
    (onEvent lib s ev env).chans = s.chans ∧
    (onEvent lib s ev env).loops = s.loops := by
  obtain ⟨-, h1, h2, h3, h4, h5⟩ := repair_frame s ev env
  unfold onEvent
  cases h : tls.LoadX509KeyPair lib (repair s ev env).fs (repair s ev env).w.CertFile
      (repair s ev env).w.KeyFile with
  | error err => simp [load_error lib _ err h, Sys.Errorf, Sys.call, h1, h2, h3, h4, h5]
  | ok kp => simp [load_ok lib _ kp h, Sys.Infof, Sys.call, h1, h2, h3, h4, h5]

/-- An event whose reload fails leaves the credential in place. -/
theorem onEvent_keyPair_error (lib : tls.Lib) (s : Sys) (ev : fsnotify.Event) (env : EventEnv)
    (err : Error)
    (h : tls.LoadX509KeyPair lib (repair s ev env).fs s.w.CertFile s.w.KeyFile = .error err) :
    (onEvent lib s ev env).w.keyPair = s.w.keyPair ∧
    (onEvent lib s ev env).log =
      (repair s ev env).log ++ [⟨.error, "can't load cert or key file: %v", some err⟩] := by
  obtain ⟨h0, h1, h2, -⟩ := repair_frame s ev env
  rw [← h1, ← h2] at h
  unfold onEvent
  simp [load_error lib _ err h, Sys.Errorf, Sys.call, h0]

/-- An event whose reload succeeds installs the pair just loaded. -/
theorem onEvent_keyPair_ok (lib : tls.Lib) (s : Sys) (ev : fsnotify.Event) (env : EventEnv)
    (kp : tls.Certificate)
    (h : tls.LoadX509KeyPair lib (repair s ev env).fs s.w.CertFile s.w.KeyFile = .ok kp) :
    (onEvent lib s ev env).w.keyPair = some kp := by
  obtain ⟨-, h1, h2, -⟩ := repair_frame s ev env
  rw [← h1, ← h2] at h
  unfold onEvent
  simp [load_ok lib _ kp h, Sys.Infof, Sys.call]

end cert

namespace cert

/-- What a successful `Watch` leaves behind: the pair loaded from the two files is the
credential, both paths are watched, a fresh stop channel and one more loop exist. -/
theorem Watch_ok (lib : tls.Lib) (env : WatchEnv) (s : Sys) (h : (Watch lib env s).2 = none) :
    ∃ c0, tls.LoadX509KeyPair lib s.fs s.w.CertFile s.w.KeyFile = .ok c0 ∧
      (Watch lib env s).1.w.keyPair = some c0 ∧
      (Watch lib env s).1.w.CertFile = s.w.CertFile ∧
      (Watch lib env s).1.w.KeyFile = s.w.KeyFile ∧
      (Watch lib env s).1.w.watcher
        = some ((fsnotify.Watcher.add ⟨[], false⟩ s.w.CertFile).add s.w.KeyFile) ∧
      (Watch lib env s).1.w.stop = some s.chans ∧
      (Watch lib env s).1.chans = s.chans + 1 ∧
      (Watch lib env s).1.loops = s.loops + 1 := by
  obtain ⟨n, a, k⟩ := env
  cases n <;> cases a <;> cases k <;>
    cases hl : tls.LoadX509KeyPair lib s.fs s.w.CertFile s.w.KeyFile <;>
    simp [Watch, watcherAdd, load, Sys.call, Sys.Infof, hl] at h ⊢

/-- The credential after the loop consumed `ms` is the result of the most recent load
that succeeded. -/
theorem run_keyPair (lib : tls.Lib) (ms : List Msg) :
    ∀ (s : Sys) (c : tls.Certificate), s.w.keyPair = some c →
      (run lib s ms).w.keyPair = some (lastLoaded lib s.w.CertFile s.w.KeyFile c ms) := by
  induction ms with
  | nil => intro s c hc; simpa [run, lastLoaded] using hc
  | cons m ms ih =>
    intro s c hc
    cases m with
    | stop => simpa [run, lastLoaded, onStop, Sys.Infof, Sys.call] using hc
    | error e =>
      have := ih (s.Debugf "error watching files: %v" (some e)) c (by simpa [Sys.Debugf] using hc)
      simpa [run, lastLoaded, Sys.Debugf] using this
    | event ev env =>
      obtain ⟨f1, f2, -⟩ := onEvent_frame lib s ev env
      cases hl : tls.LoadX509KeyPair lib (fsAtLoad ev env) s.w.CertFile s.w.KeyFile with
      | error err =>
        have hk := (onEvent_keyPair_error lib s ev env err (by rw [repair_fs]; exact hl)).1
        have := ih (onEvent lib s ev env) c (by rw [hk]; exact hc)
        simpa [run, lastLoaded, hl, f1, f2] using this
      | ok kp =>
        have hk := onEvent_keyPair_ok lib s ev env kp (by rw [repair_fs]; exact hl)
        have := ih (onEvent lib s ev env) kp hk
        simpa [run, lastLoaded, hl, f1, f2] using this

end cert

namespace tls

/-- A missing file or a pair the parser rejects makes `LoadX509KeyPair` fail. -/
theorem LoadX509KeyPair_bad (lib : Lib) (fs : FS) (certFile keyFile : String)
    (h : fs certFile = none ∨ fs keyFile = none ∨
      ∃ c k e, fs certFile = some c ∧ fs keyFile = some k ∧ lib.X509KeyPair c k = .error e) :
    ∃ err, LoadX509KeyPair lib fs certFile keyFile = .error err := by
  unfold LoadX509KeyPair ReadFile
  rcases h with h | h | ⟨c, k, e, h1, h2, h3⟩
  · simp [h]
  · cases hc : fs certFile <;> simp [h]
  · simp [h1, h2, h3]

end tls

namespace cert

/-- A `Watch` whose initial load cannot succeed returns an error and leaves the stop
channel, the channel count and the loop count as they were. -/
theorem Watch_load_error (lib : tls.Lib) (env : WatchEnv) (s : Sys) (err : Error)
    (h : tls.LoadX509KeyPair lib s.fs s.w.CertFile s.w.KeyFile = .error err) :
    (Watch lib env s).2 ≠ none ∧
    (Watch lib env s).1.w.stop = s.w.stop ∧
    (Watch lib env s).1.chans = s.chans ∧
    (Watch lib env s).1.loops = s.loops := by
  obtain ⟨n, a, k⟩ := env
  cases n <;> cases a <;> cases k <;>
    simp [Watch, watcherAdd, load, Sys.call, Sys.Infof, h]

end cert

namespace cert

/-- An event whose `Op` is not exactly `Remove` makes no external call before the
reload, creates no file and leaves the subscription alone. -/
theorem repair_other (s : Sys) (ev : fsnotify.Event) (env : EventEnv)
    (h : ev.Op ≠ fsnotify.Remove) :
    (repair s ev env).calls = s.calls ∧ (repair s ev env).fs = env.fs ∧
    (repair s ev env).w.watcher = s.w.watcher := by
  simp [repair, h, Sys.Debugf]

/-- An event whose `Op` is exactly `Remove` calls `os.Create` on the path, closes the
file when it was created, and then calls `Add` on the path. -/
theorem repair_remove (s : Sys) (ev : fsnotify.Event) (env : EventEnv)
    (h : ev.Op = fsnotify.Remove) :
    (repair s ev env).calls = s.calls ++
      (if env.createErr = none then [.Create ev.Name, .Close ev.Name, .Add ev.Name]
       else [.Create ev.Name, .Add ev.Name]) := by
  unfold repair
  cases hc : env.createErr <;> cases hl : env.closeErr <;> cases ha : env.addErr <;>
    simp [respawnFile, watcherAdd, Sys.Debugf, Sys.call, hc, hl, ha, h]

theorem add_closed (fw : fsnotify.Watcher) (name : String) :
    (fw.add name).closed = fw.closed := by
  unfold fsnotify.Watcher.add
  split <;> rfl

/-- Handling an event neither closes nor drops the subscription. -/
theorem onEvent_closed (lib : tls.Lib) (s : Sys) (ev : fsnotify.Event) (env : EventEnv) :
    (onEvent lib s ev env).w.watcher.map (fun fw => fw.closed)
      = s.w.watcher.map (fun fw => fw.closed) := by
  have hr : (repair s ev env).w.watcher.map (fun fw => fw.closed)
      = s.w.watcher.map (fun fw => fw.closed) := by
    unfold repair
    cases hw : s.w.watcher <;>
    cases hc : env.createErr <;> cases hl : env.closeErr <;> cases ha : env.addErr <;>
      by_cases hop : ev.Op = fsnotify.Remove <;>
      simp [respawnFile, watcherAdd, Sys.Debugf, Sys.call, hc, hl, ha, hop, hw, add_closed]
  unfold onEvent
  cases h : tls.LoadX509KeyPair lib (repair s ev env).fs (repair s ev env).w.CertFile
      (repair s ev env).w.KeyFile with
  | error err => simpa [load_error lib _ err h, Sys.Errorf, Sys.call] using hr
  | ok kp => simpa [load_ok lib _ kp h, Sys.Infof, Sys.call] using hr

/-- The loop keeps its stop channel, the loop and channel counts and the state of its
subscription while no stop signal is consumed. -/
theorem run_no_stop (lib : tls.Lib) (ms : List Msg) :
    ∀ s : Sys, (∀ m ∈ ms, m.isStop = false) →
      (run lib s ms).w.stop = s.w.stop ∧ (run lib s ms).loops = s.loops ∧
      (run lib s ms).chans = s.chans ∧
      (run lib s ms).w.watcher.map (fun fw => fw.closed)
        = s.w.watcher.map (fun fw => fw.closed) := by
  induction ms with
  | nil => intro s _; simp [run]
  | cons m ms ih =>
    intro s h
    have hms : ∀ m ∈ ms, m.isStop = false := fun x hx => h x (List.mem_cons_of_mem _ hx)
    cases m with
    | stop => simpa [Msg.isStop] using h .stop (List.mem_cons_self _ _)
    | error e =>
      have := ih (s.Debugf "error watching files: %v" (some e)) hms
      simpa [run, Sys.Debugf] using this
    | event ev env =>
      obtain ⟨-, -, f3, f4, f5⟩ := onEvent_frame lib s ev env
      have f6 := onEvent_closed lib s ev env
      have := ih (onEvent lib s ev env) hms
      simpa [run, f3, f4, f5, f6] using this

end cert

namespace cmd

/-- The three ways `createMTLSCfg` ends: the server pair fails to load, the client CA
bundle cannot be used, or a configuration is returned. -/
theorem createMTLSCfg_result (lib : tls.Lib) (fs : FS) (cfg : config.Configuration)
    (log : List LogLine) :
    (∃ err, tls.LoadX509KeyPair lib fs cfg.Server.Grpc.CertFilename cfg.Server.Grpc.KeyFilename
        = .error err ∧ (createMTLSCfg lib fs cfg log).1 = (none, some err)) ∨
    (∃ err, (fs cfg.Server.Grpc.ClientCACert = none ∨
          ∃ b, fs cfg.Server.Grpc.ClientCACert = some b ∧ lib.parseCertsPEM b = []) ∧
        (createMTLSCfg lib fs cfg log).1 = (none, some err)) ∨
    (∃ kp b, tls.LoadX509KeyPair lib fs cfg.Server.Grpc.CertFilename cfg.Server.Grpc.KeyFilename
        = .ok kp ∧ fs cfg.Server.Grpc.ClientCACert = some b ∧ lib.parseCertsPEM b ≠ [] ∧
        (createMTLSCfg lib fs cfg log).1 =
          (some { Certificates := [kp], GetCertificate := none,
                  ClientAuth := .RequireAndVerifyClientCert,
                  ClientCAs := some (x509.NewCertPool.AppendCertsFromPEM lib b).1 }, none)) := by
  cases hl : tls.LoadX509KeyPair lib fs cfg.Server.Grpc.CertFilename
      cfg.Server.Grpc.KeyFilename with
  | error err => exact Or.inl ⟨err, rfl, by simp [createMTLSCfg, createSrvTlsCfg, hl]⟩
  | ok kp =>
    right
    cases hb : fs cfg.Server.Grpc.ClientCACert with
    | none =>
      exact Or.inl ⟨_, Or.inl rfl, by
        simp [createMTLSCfg, createSrvTlsCfg, loadClientCACerts, ReadFile, hl, hb]; rfl⟩
    | some b =>
      by_cases hp : lib.parseCertsPEM b = []
      · exact Or.inl ⟨_, Or.inr ⟨b, rfl, hp⟩, by
          simp [createMTLSCfg, createSrvTlsCfg, loadClientCACerts, ReadFile, hl, hb,
            x509.CertPool.AppendCertsFromPEM, hp]; rfl⟩
      · refine Or.inr ⟨kp, b, rfl, rfl, hp, ?_⟩
        have he : (lib.parseCertsPEM b).isEmpty = false := by
          cases hq : lib.parseCertsPEM b with
          | nil => exact absurd hq hp
          | cons x xs => rfl
        simp [createMTLSCfg, createSrvTlsCfg, loadClientCACerts, ReadFile, hl, hb,
          x509.CertPool.AppendCertsFromPEM, he]

end cmd

/-! ## C1: a failed reload keeps the active credential -/

/-- C1: when the watcher's active credential is `c` and the reload made while handling
an event fails, `getCertificate` and the `GetCertificate` callback of `TLSConfig` still
return `c` afterwards, the failure ends up as one error line in the log, the number of
live loops is unchanged and the loop goes on with the messages that follow. -/
theorem reload_failure_keeps_credential (lib : tls.Lib) (s : cert.Sys) (c : tls.Certificate)
    (ev : fsnotify.Event) (env : cert.EventEnv) (err : Error) (ms : List cert.Msg)
    (hc : cert.getCertificate s.w = some c)
    (hload : tls.LoadX509KeyPair lib (cert.repair s ev env).fs s.w.CertFile s.w.KeyFile
      = .error err) :
    cert.getCertificate (cert.onEvent lib s ev env).w = some c ∧
    cert.TLSConfig.GetCertificate.map (fun f => f (cert.onEvent lib s ev env).w)
      = some (some c, none) ∧
    (cert.onEvent lib s ev env).log
      = (cert.repair s ev env).log ++ [⟨.error, "can't load cert or key file: %v", some err⟩] ∧
    (cert.onEvent lib s ev env).loops = s.loops ∧
    cert.run lib s (.event ev env :: ms) = cert.run lib (cert.onEvent lib s ev env) ms := by
  obtain ⟨hk, hl⟩ := cert.onEvent_keyPair_error lib s ev env err hload
  have hg : cert.getCertificate (cert.onEvent lib s ev env).w = some c := by
    simpa [cert.getCertificate, hk] using hc
  refine ⟨hg, ?_, hl, (cert.onEvent_frame lib s ev env).2.2.2.2, rfl⟩
  simp [cert.TLSConfig, hg]

/-- C1 at a concrete input: the started watcher holds the pair of `[1, 2]`, both files
are then deleted and a write event arrives. -/
theorem reload_failure_keeps_credential_witness :
    cert.getCertificate (cert.onEvent demo.lib demo.started ⟨"server.crt", fsnotify.Write⟩
      (demo.envOk demo.fsEmpty)).w = some ⟨[[1, 2]], [2, 1]⟩ :=
  (reload_failure_keeps_credential demo.lib demo.started ⟨[[1, 2]], [2, 1]⟩
    ⟨"server.crt", fsnotify.Write⟩ (demo.envOk demo.fsEmpty)
    (.base "open server.crt: no such file or directory") [] (by decide) (by rfl)).1

/-! ## C2: the credential is always the most recent successful load -/

/-- C2: after a successful `Watch`, whatever finite sequence of events, watcher errors
and stop signal the loop consumes, `getCertificate` returns a non-nil credential, the
result of the most recent load that succeeded, the initial load of `Watch` included. -/
theorem credential_is_last_successful_load (lib : tls.Lib) (env : cert.WatchEnv) (s : cert.Sys)
    (ms : List cert.Msg) (h : (cert.Watch lib env s).2 = none) :
    ∃ c0, tls.LoadX509KeyPair lib s.fs s.w.CertFile s.w.KeyFile = .ok c0 ∧
      cert.getCertificate (cert.run lib (cert.Watch lib env s).1 ms).w
        = some (cert.lastLoaded lib s.w.CertFile s.w.KeyFile c0 ms) := by
  obtain ⟨c0, h0, hk, hc, hkf, -⟩ := cert.Watch_ok lib env s h
  refine ⟨c0, h0, ?_⟩
  have := cert.run_keyPair lib ms (cert.Watch lib env s).1 c0 hk
  simpa [cert.getCertificate, hc, hkf] using this

/-- C2 on the scenario of the test: valid pair, malformed pair, another valid pair,
both files deleted. The credential ends as the second valid pair. -/
theorem credential_is_last_successful_load_witness :
    (cert.Watch demo.lib demo.watchOk (demo.fresh (demo.fsPair [1, 2]))).2 = none ∧
    cert.getCertificate (cert.run demo.lib
        (cert.Watch demo.lib demo.watchOk (demo.fresh (demo.fsPair [1, 2]))).1
        [.event ⟨"server.crt", fsnotify.Write⟩ (demo.envOk demo.fsBad),
         .event ⟨"server.crt", fsnotify.Write⟩ (demo.envOk (demo.fsPair [3])),
         .error (.base "overflow"),
         .event ⟨"server.crt", fsnotify.Remove⟩ (demo.envOk demo.fsEmpty)]).w
      = some ⟨[[3]], [3]⟩ := by
  refine ⟨by decide, ?_⟩
  obtain ⟨c0, h0, hc⟩ := credential_is_last_successful_load demo.lib demo.watchOk
    (demo.fresh (demo.fsPair [1, 2]))
    [.event ⟨"server.crt", fsnotify.Write⟩ (demo.envOk demo.fsBad),
     .event ⟨"server.crt", fsnotify.Write⟩ (demo.envOk (demo.fsPair [3])),
     .error (.base "overflow"),
     .event ⟨"server.crt", fsnotify.Remove⟩ (demo.envOk demo.fsEmpty)] (by decide)
  have h1 : tls.LoadX509KeyPair demo.lib (demo.fresh (demo.fsPair [1, 2])).fs
      (demo.fresh (demo.fsPair [1, 2])).w.CertFile (demo.fresh (demo.fsPair [1, 2])).w.KeyFile
      = .ok ⟨[[1, 2]], [2, 1]⟩ := by rfl
  have h2 : c0 = ⟨[[1, 2]], [2, 1]⟩ := by
    rw [h1] at h0
    exact (Except.ok.inj h0).symm
  subst h2
  rw [hc]
  decide

/-! ## C3: `Watch` on a missing or malformed pair -/

/-- C3: when the certificate file or the key file is missing, or the two do not hold a
well-formed matching pair, `Watch` returns a non-nil error and launches nothing: the
stop channel of the watcher is the one it had, no channel is created and the number of
live `run` goroutines is unchanged, whatever the outcome of the fsnotify calls. -/
theorem Watch_rejects_bad_pair (lib : tls.Lib) (env : cert.WatchEnv) (s : cert.Sys)
    (h : s.fs s.w.CertFile = none ∨ s.fs s.w.KeyFile = none ∨
      ∃ c k e, s.fs s.w.CertFile = some c ∧ s.fs s.w.KeyFile = some k ∧
        lib.X509KeyPair c k = .error e) :
    (cert.Watch lib env s).2 ≠ none ∧
    (cert.Watch lib env s).1.w.stop = s.w.stop ∧
    (cert.Watch lib env s).1.chans = s.chans ∧
    (cert.Watch lib env s).1.loops = s.loops := by
  obtain ⟨err, he⟩ := tls.LoadX509KeyPair_bad lib s.fs s.w.CertFile s.w.KeyFile h
  exact cert.Watch_load_error lib env s err he

/-- C3 at a concrete input: both files are missing, as in the first step of the test. -/
theorem Watch_rejects_bad_pair_witness :
    (cert.Watch demo.lib demo.watchOk (demo.fresh demo.fsEmpty)).2 ≠ none ∧
    (cert.Watch demo.lib demo.watchOk (demo.fresh demo.fsEmpty)).1.w.stop = none ∧
    (cert.Watch demo.lib demo.watchOk (demo.fresh demo.fsEmpty)).1.chans = 0 ∧
    (cert.Watch demo.lib demo.watchOk (demo.fresh demo.fsEmpty)).1.loops = 0 :=
  Watch_rejects_bad_pair demo.lib demo.watchOk (demo.fresh demo.fsEmpty) (Or.inl rfl)

/-! ## C4: `Watch` subscribes before it loads -/

/-- C4 fails: on files that exist but hold a malformed pair, `Watch` returns the load
error and the watcher it created holds a watch on both paths, the two `Add` calls
having been made before the load. -/
theorem Watch_subscribes_before_load_counterexample :
    (cert.Watch demo.lib demo.watchOk (demo.fresh demo.fsBad)).2
      = some (.wrap "can't load cert or key file"
          (.base "tls: failed to find any PEM data in certificate input")) ∧
    (cert.Watch demo.lib demo.watchOk (demo.fresh demo.fsBad)).1.w.watcher
      = some ⟨["server.crt", "server.key"], false⟩ ∧
    (cert.Watch demo.lib demo.watchOk (demo.fresh demo.fsBad)).1.calls
      = [.NewWatcher, .Add "server.crt", .Add "server.key",
         .LoadX509KeyPair "server.crt" "server.key"] := by
  decide

/-- C4 amended: `Watch` subscribes first and loads afterwards. Whenever `Watch` returns
the error of a failed initial load, the external calls it made are, in order, the
creation of the fsnotify watcher, `Add` of the certificate file, `Add` of the key file
and the load; the watcher it created is open and watches both paths; no stop channel
is created and no loop is started. -/
theorem Watch_load_failure_after_subscription (lib : tls.Lib) (env : cert.WatchEnv)
    (s : cert.Sys) (err : Error)
    (h : (cert.Watch lib env s).2 = some (.wrap "can't load cert or key file" err)) :
    (cert.Watch lib env s).1.calls
      = s.calls ++ [.NewWatcher, .Add s.w.CertFile, .Add s.w.KeyFile,
          .LoadX509KeyPair s.w.CertFile s.w.KeyFile] ∧
    (cert.Watch lib env s).1.w.watcher
      = some ((fsnotify.Watcher.add ⟨[], false⟩ s.w.CertFile).add s.w.KeyFile) ∧
    (cert.Watch lib env s).1.w.keyPair = s.w.keyPair ∧
    (cert.Watch lib env s).1.w.stop = s.w.stop ∧
    (cert.Watch lib env s).1.chans = s.chans ∧
    (cert.Watch lib env s).1.loops = s.loops := by
  obtain ⟨n, a, k⟩ := env
  cases n <;> cases a <;> cases k <;>
    cases hl : tls.LoadX509KeyPair lib s.fs s.w.CertFile s.w.KeyFile <;>
    simp [cert.Watch, cert.watcherAdd, cert.load, cert.Sys.call, cert.Sys.Infof, hl] at h ⊢

/-- C4 amended, at the input of the counterexample. -/
theorem Watch_load_failure_after_subscription_witness :
    (cert.Watch demo.lib demo.watchOk (demo.fresh demo.fsBad)).1.w.stop = none ∧
    (cert.Watch demo.lib demo.watchOk (demo.fresh demo.fsBad)).1.loops = 0 :=
  let h := Watch_load_failure_after_subscription demo.lib demo.watchOk (demo.fresh demo.fsBad)
    (.base "tls: failed to find any PEM data in certificate input") (by decide)
  ⟨h.2.2.2.1, h.2.2.2.2.2⟩

/-! ## C5: the repair step on removal -/

/-- C5 at the failing input: the certificate file has been removed and the event
carries `Remove` together with `Write`. Its operation set includes `Remove`, yet the
only external call made is the reload: the file is not recreated and not watched
again. An event whose `Op` is exactly `Remove` does get both. -/
theorem remove_combined_with_write_not_repaired :
    fsnotify.Op.Has (fsnotify.Remove ||| fsnotify.Write) fsnotify.Remove = true ∧
    (cert.onEvent demo.lib demo.started ⟨"server.crt", fsnotify.Remove ||| fsnotify.Write⟩
        (demo.envOk demo.fsKeyOnly)).calls
      = demo.started.calls ++ [.LoadX509KeyPair "server.crt" "server.key"] ∧
    (cert.onEvent demo.lib demo.started ⟨"server.crt", fsnotify.Remove ||| fsnotify.Write⟩
        (demo.envOk demo.fsKeyOnly)).fs "server.crt" = none ∧
    (cert.onEvent demo.lib demo.started ⟨"server.crt", fsnotify.Remove⟩
        (demo.envOk demo.fsKeyOnly)).calls
      = demo.started.calls ++ [.Create "server.crt", .Close "server.crt", .Add "server.crt",
          .LoadX509KeyPair "server.crt" "server.key"] ∧
    (cert.onEvent demo.lib demo.started ⟨"server.crt", fsnotify.Remove⟩
        (demo.envOk demo.fsKeyOnly)).fs "server.crt" = some [] := by
  decide

/-! ## C6: where the server configuration takes its certificate from -/

/-- C6 fails: the configuration `createMTLSCfg` builds from the pair of `[1, 2]` has no
`GetCertificate` callback and carries that pair in `Certificates`, while a watcher on
the same files that has reloaded the pair of `[3]` returns the new pair. -/
theorem createMTLSCfg_certificate_source_counterexample :
    (cmd.createMTLSCfg demo.lib (demo.fsServer [1, 2]) demo.cfg []).1.1.map
        (fun c => (c.GetCertificate.isSome, c.Certificates))
      = some (false, [⟨[[1, 2]], [2, 1]⟩]) ∧
    cert.getCertificate (cert.onEvent demo.lib demo.started ⟨"server.crt", fsnotify.Write⟩
        (demo.envOk (demo.fsPair [3]))).w = some ⟨[[3]], [3]⟩ := by
  decide

/-- C6 amended: a configuration returned by `createMTLSCfg` takes the server
certificate from the one load of the configured certificate and key files made while
it is built: `Certificates` holds exactly that pair and `GetCertificate` is unset. The
callback that returns a watcher's current credential is the one of `Watcher.TLSConfig`. -/
theorem createMTLSCfg_certificate_is_static (lib : tls.Lib) (fs : FS)
    (cfg : config.Configuration) (log : List LogLine) (c : tls.Config)
    (h : (cmd.createMTLSCfg lib fs cfg log).1.1 = some c) :
    c.GetCertificate = none ∧
    (∃ kp, tls.LoadX509KeyPair lib fs cfg.Server.Grpc.CertFilename cfg.Server.Grpc.KeyFilename
      = .ok kp ∧ c.Certificates = [kp]) ∧
    ∀ w : cert.Watcher, cert.TLSConfig.GetCertificate.map (fun f => f w)
      = some (cert.getCertificate w, none) := by
  refine ⟨?_, ?_, fun w => rfl⟩ <;>
    rcases cmd.createMTLSCfg_result lib fs cfg log with
      ⟨err, -, he⟩ | ⟨err, -, he⟩ | ⟨kp, b, hl, -, -, he⟩
  · rw [he] at h; cases h
  · rw [he] at h; cases h
  · rw [he] at h; cases h; rfl
  · rw [he] at h; cases h
  · rw [he] at h; cases h
  · rw [he] at h; cases h; exact ⟨kp, hl, rfl⟩

/-- C6 amended, at the input of the counterexample. -/
theorem createMTLSCfg_certificate_is_static_witness :
    ∃ c, (cmd.createMTLSCfg demo.lib (demo.fsServer [1, 2]) demo.cfg []).1.1 = some c ∧
      c.GetCertificate = none :=
  ⟨{ Certificates := [⟨[[1, 2]], [2, 1]⟩], GetCertificate := none,
     ClientAuth := .RequireAndVerifyClientCert, ClientCAs := some ⟨[[8]]⟩ }, rfl,
   (createMTLSCfg_certificate_is_static demo.lib (demo.fsServer [1, 2]) demo.cfg [] _ rfl).1⟩

/-! ## C7: the configuration forces mutual TLS -/

/-- C7: whenever `createMTLSCfg` returns a nil error it returns a configuration whose
`ClientAuth` is `RequireAndVerifyClientCert` and whose `ClientCAs` is the pool parsed
from the configured client CA file; when the server pair cannot be loaded, the client
CA file cannot be read, or no certificate can be parsed from it, `createMTLSCfg`
returns an error and no configuration. -/
theorem createMTLSCfg_requires_client_cert (lib : tls.Lib) (fs : FS)
    (cfg : config.Configuration) (log : List LogLine) :
    ((cmd.createMTLSCfg lib fs cfg log).1.2 = none →
      ∃ c b, (cmd.createMTLSCfg lib fs cfg log).1.1 = some c ∧
        c.ClientAuth = .RequireAndVerifyClientCert ∧
        fs cfg.Server.Grpc.ClientCACert = some b ∧
        c.ClientCAs = some (x509.NewCertPool.AppendCertsFromPEM lib b).1) ∧
    (((∃ err, tls.LoadX509KeyPair lib fs cfg.Server.Grpc.CertFilename
          cfg.Server.Grpc.KeyFilename = .error err) ∨
        fs cfg.Server.Grpc.ClientCACert = none ∨
        ∃ b, fs cfg.Server.Grpc.ClientCACert = some b ∧ lib.parseCertsPEM b = []) →
      (cmd.createMTLSCfg lib fs cfg log).1.1 = none ∧
      (cmd.createMTLSCfg lib fs cfg log).1.2 ≠ none) := by
  rcases cmd.createMTLSCfg_result lib fs cfg log with
    ⟨err, -, he⟩ | ⟨err, -, he⟩ | ⟨kp, b, hl, hb, hp, he⟩
  · rw [he]; simp
  · rw [he]; simp
  · rw [he]
    refine ⟨fun _ => ⟨_, b, rfl, rfl, hb, rfl⟩, ?_⟩
    rintro (⟨err, h⟩ | h | ⟨b1, h1, h2⟩)
    · rw [hl] at h; cases h
    · rw [hb] at h; cases h
    · rw [hb] at h1; cases h1; exact absurd h2 hp

/-- C7 at concrete inputs: with a usable client CA bundle the configuration demands a
verified client certificate and trusts that bundle; with an empty bundle nothing is
returned but an error. -/
theorem createMTLSCfg_requires_client_cert_witness :
    (∃ c b, (cmd.createMTLSCfg demo.lib (demo.fsServer [1, 2]) demo.cfg []).1.1 = some c ∧
        c.ClientAuth = .RequireAndVerifyClientCert ∧
        demo.fsServer [1, 2] demo.cfg.Server.Grpc.ClientCACert = some b ∧
        c.ClientCAs = some (x509.NewCertPool.AppendCertsFromPEM demo.lib b).1) ∧
    ((cmd.createMTLSCfg demo.lib (demo.fsServerNoCA [1, 2]) demo.cfg []).1.1 = none ∧
      (cmd.createMTLSCfg demo.lib (demo.fsServerNoCA [1, 2]) demo.cfg []).1.2 ≠ none) :=
  ⟨(createMTLSCfg_requires_client_cert demo.lib (demo.fsServer [1, 2]) demo.cfg []).1 rfl,
   (createMTLSCfg_requires_client_cert demo.lib (demo.fsServerNoCA [1, 2]) demo.cfg []).2
     (Or.inr (Or.inr ⟨[], rfl, rfl⟩))⟩

/-! ## C8: stopping twice -/

/-- C8 fails: on the started watcher the first `Stop` returns and the second one does
not, no loop being left to receive from the stop channel. -/
theorem Stop_twice_counterexample :
    (cert.Stop demo.lib demo.started).isSome = true ∧
    ((cert.Stop demo.lib demo.started).bind (cert.Stop demo.lib)).isSome = false := by
  decide

/-- C8 amended: on a watcher whose `Watch` succeeded, after any events and watcher
errors, the first `Stop` returns; the loop receives the signal once, logs it, closes
the notification subscription and exits. A second `Stop` does not return: no loop is
left to receive its send. -/
theorem Stop_once_then_blocks (lib : tls.Lib) (env : cert.WatchEnv) (s : cert.Sys)
    (ms : List cert.Msg) (h0 : s.loops = 0) (h : (cert.Watch lib env s).2 = none)
    (hms : ∀ m ∈ ms, m.isStop = false) :
    ∃ s2, cert.Stop lib (cert.run lib (cert.Watch lib env s).1 ms) = some s2 ∧
      s2.log = (cert.run lib (cert.Watch lib env s).1 ms).log
        ++ [⟨.info, "stopped watching", none⟩] ∧
      s2.calls = (cert.run lib (cert.Watch lib env s).1 ms).calls ++ [.WatcherClose] ∧
      s2.w.watcher.map (fun fw => fw.closed) = some true ∧
      s2.loops = 0 ∧
      cert.Stop lib s2 = none := by
  obtain ⟨c0, -, -, -, -, hw, hs, -, hl⟩ := cert.Watch_ok lib env s h
  obtain ⟨r1, r2, -, r4⟩ := cert.run_no_stop lib ms (cert.Watch lib env s).1 hms
  rw [hs] at r1
  rw [hl, h0] at r2
  rw [hw] at r4
  refine ⟨cert.onStop (cert.run lib (cert.Watch lib env s).1 ms), ?_, ?_, ?_, ?_, ?_, ?_⟩
  · simp [cert.Stop, r1, r2, cert.run]
  · simp [cert.onStop, cert.Sys.Infof, cert.Sys.call]
  · simp [cert.onStop, cert.Sys.Infof, cert.Sys.call]
  · cases hq : (cert.run lib (cert.Watch lib env s).1 ms).w.watcher with
    | none => simp [hq] at r4
    | some fw => simp [cert.onStop, cert.Sys.Infof, cert.Sys.call, hq]
  · simp [cert.onStop, cert.Sys.Infof, cert.Sys.call, r2]
  · simp [cert.Stop, cert.onStop, cert.Sys.Infof, cert.Sys.call, r2]

/-- C8 amended, on the started watcher after one reload. -/
theorem Stop_once_then_blocks_witness :
    ∃ s2, cert.Stop demo.lib (cert.run demo.lib
        (cert.Watch demo.lib demo.watchOk (demo.fresh (demo.fsPair [1, 2]))).1
        [.event ⟨"server.crt", fsnotify.Write⟩ (demo.envOk (demo.fsPair [3]))]) = some s2 ∧
      s2.loops = 0 ∧ cert.Stop demo.lib s2 = none := by
  obtain ⟨s2, h1, -, -, -, h2, h3⟩ := Stop_once_then_blocks demo.lib demo.watchOk
    (demo.fresh (demo.fsPair [1, 2]))
    [.event ⟨"server.crt", fsnotify.Write⟩ (demo.envOk (demo.fsPair [3]))]
    rfl (by decide) (by simp [cert.Msg.isStop])
  exact ⟨s2, h1, h2, h3⟩

/-! ## C10: `InMemoryRepo.Get` -/

/-- C10: for every store and every id, `Get` returns the value stored under the id with
a nil error when the id is a key, returns `(nil, NotFoundErr)` exactly when the id is
not a key, and leaves the store as it was. -/
theorem Get_returns_stored_item (r : repository.InMemoryRepo) (id : String) :
    (∀ z, r.lookup id = some z → (r.Get id).1 = (z, none)) ∧
    ((r.Get id).1 = (none, some repository.NotFoundErr) ↔ r.lookup id = none) ∧
    (r.Get id).2 = r := by
  unfold repository.InMemoryRepo.Get
  cases h : r.lookup id <;> simp

/-- C10 on the repository of the tests: `id-1` is found, `id-3` is not. -/
theorem Get_returns_stored_item_witness :
    (demo.repo.Get "id-1").1 = (some demo.i1, none) ∧
    (demo.repo.Get "id-3").1 = (none, some repository.NotFoundErr) :=
  ⟨(Get_returns_stored_item demo.repo "id-1").1 (some demo.i1) (by decide),
   (Get_returns_stored_item demo.repo "id-3").2.1.2 (by decide)⟩

/-! ## Lemmas on the repository -/

namespace repository

/-- `Get` is determined by the lookup. -/
theorem Get_fst (r : InMemoryRepo) (id : String) :
    (r.Get id).1 = match r.lookup id with
      | none => (none, some NotFoundErr)
      | some z => (z, none) := by
  unfold InMemoryRepo.Get
  cases r.lookup id <;> rfl

/-- On an allocated map `Upsert` does not panic: it returns its argument and stores it
under its id, leaving the other keys alone. -/
theorem Upsert_allocated (r : InMemoryRepo) (m : String → Option (Option proto.Item))
    (i : Option proto.Item) (h : r.items = some m) :
    ∃ r1, r.Upsert i = some ((i, none), r1) ∧
      r1.lookup (proto.Item.GetId i) = some i ∧
      ∀ id, id ≠ proto.Item.GetId i → r1.lookup id = r.lookup id := by
  refine ⟨⟨some (fun k => if k = proto.Item.GetId i then some i else m k)⟩, ?_, ?_, ?_⟩
  · simp [InMemoryRepo.Upsert, h]
  · simp [InMemoryRepo.lookup]
  · intro id hid
    simp [InMemoryRepo.lookup, h, hid]

end repository

/-! ## C11: `InMemoryRepo.Remove` -/

/-- C11: for every store and every id, `Remove` returns a nil error; afterwards the id
is not a key, every other id maps to what it mapped to before, and when the id was not
a key the store is the one passed in. -/
theorem Remove_deletes_only_the_id (r : repository.InMemoryRepo) (id : String) :
    (r.Remove id).1 = none ∧
    (r.Remove id).2.lookup id = none ∧
    (∀ k, k ≠ id → (r.Remove id).2.lookup k = r.lookup k) ∧
    (r.lookup id = none → (r.Remove id).2 = r) := by
  obtain ⟨items⟩ := r
  cases items with
  | none => simp [repository.InMemoryRepo.Remove, repository.InMemoryRepo.lookup]
  | some m =>
    refine ⟨rfl, by simp [repository.InMemoryRepo.Remove, repository.InMemoryRepo.lookup], ?_, ?_⟩
    · intro k hk
      simp [repository.InMemoryRepo.Remove, repository.InMemoryRepo.lookup, hk]
    · intro h
      have hm : m id = none := by simpa [repository.InMemoryRepo.lookup] using h
      have hf : (fun k => if k = id then none else m k) = m := by
        funext k
        by_cases hk : k = id
        · simp [hk, hm]
        · simp [hk]
      simp [repository.InMemoryRepo.Remove, hf]

/-- C11 on the repository of the tests: removing `id-2` leaves `id-1` alone, removing
the absent `id-5` changes nothing. -/
theorem Remove_deletes_only_the_id_witness :
    ((demo.repo.Remove "id-2").2.lookup "id-2" = none ∧
      (demo.repo.Remove "id-2").2.lookup "id-1" = some (some demo.i1)) ∧
    (demo.repo.Remove "id-5").2 = demo.repo :=
  ⟨⟨(Remove_deletes_only_the_id demo.repo "id-2").2.1,
    ((Remove_deletes_only_the_id demo.repo "id-2").2.2.1 "id-1" (by decide)).trans
      (by decide)⟩,
   (Remove_deletes_only_the_id demo.repo "id-5").2.2.2 (by decide)⟩

/-! ## C12: `InMemoryRepo.Upsert` -/

/-- C12 fails on the zero value `InMemoryRepo{}`: its map is nil, `Get` finds nothing
in it and `Upsert` panics instead of returning the item. -/
theorem Upsert_zero_value_counterexample :
    (demo.repoZero.Get "id-1").1 = (none, some repository.NotFoundErr) ∧
    (demo.repoZero.Upsert (some demo.i1)).isSome = false := by
  decide

/-- C12 amended: for every store whose map is allocated, empty or not, and every item
`i`, `Upsert` returns `i` with a nil error whether or not the id was stored; afterwards
`Get` of the id of `i` returns `i` with a nil error and `Get` of every other id returns
what it returned before. -/
theorem Upsert_then_Get (r : repository.InMemoryRepo) (i : Option proto.Item)
    (h : r.items ≠ none) :
    ∃ r1, r.Upsert i = some ((i, none), r1) ∧
      (r1.Get (proto.Item.GetId i)).1 = (i, none) ∧
      ∀ id, id ≠ proto.Item.GetId i → (r1.Get id).1 = (r.Get id).1 := by
  cases hm : r.items with
  | none => exact absurd hm h
  | some m =>
    obtain ⟨r1, h1, h2, h3⟩ := repository.Upsert_allocated r m i hm
    refine ⟨r1, h1, ?_, ?_⟩
    · rw [repository.Get_fst, h2]
    · intro id hid
      rw [repository.Get_fst, repository.Get_fst, h3 id hid]

/-- C12 amended, on the cases of the tests: an id not yet stored, an id already stored,
and the empty repository made by `NewInMemoryRepo`. -/
theorem Upsert_then_Get_witness :
    (∃ r1, demo.repo.Upsert (some demo.i3) = some ((some demo.i3, none), r1) ∧
      (r1.Get "id-3").1 = (some demo.i3, none)) ∧
    (∃ r1, demo.repo.Upsert (some demo.i1Updated) = some ((some demo.i1Updated, none), r1) ∧
      (r1.Get "id-1").1 = (some demo.i1Updated, none)) ∧
    (∃ r1, repository.NewInMemoryRepo.Upsert (some demo.i1) = some ((some demo.i1, none), r1) ∧
      (r1.Get "id-1").1 = (some demo.i1, none)) := by
  refine ⟨?_, ?_, ?_⟩
  · obtain ⟨r1, h1, h2, -⟩ := Upsert_then_Get demo.repo (some demo.i3) (by simp [demo.repo])
    exact ⟨r1, h1, h2⟩
  · obtain ⟨r1, h1, h2, -⟩ := Upsert_then_Get demo.repo (some demo.i1Updated)
      (by simp [demo.repo])
    exact ⟨r1, h1, h2⟩
  · obtain ⟨r1, h1, h2, -⟩ := Upsert_then_Get repository.NewInMemoryRepo (some demo.i1)
      (by simp [repository.NewInMemoryRepo])
    exact ⟨r1, h1, h2⟩

/-! ## C13: `ShopService.Update` never creates an item -/

/-- C13: for `ShopService.Update` on an `InMemoryRepo` and every item `i`: when the id
of `i` is not a key, `Update` returns a nil item and a status error with code
`InvalidArgument` and the store is the one it was; when the id is a key, `Update`
returns `i` with a nil error, the id maps to `i` afterwards and every other id maps to
what it mapped to before. In both cases the call returns. -/
theorem Update_replaces_only_stored_items (Sprintf : String → List String → String)
    (s : service.ShopService) (log : List LogLine) (i : Option proto.Item) :
    (s.ItemsRepo.lookup (proto.Item.GetId i) = none →
      ∃ msg log1, service.ShopService.Update Sprintf s log i
        = some ((none, some (.status .InvalidArgument msg)), s, log1)) ∧
    (∀ z, s.ItemsRepo.lookup (proto.Item.GetId i) = some z →
      ∃ s1 log1, service.ShopService.Update Sprintf s log i = some ((i, none), s1, log1) ∧
        s1.ItemsRepo.lookup (proto.Item.GetId i) = some i ∧
        ∀ id, id ≠ proto.Item.GetId i → s1.ItemsRepo.lookup id = s.ItemsRepo.lookup id) := by
  constructor
  · intro h
    refine ⟨Sprintf (Sprintf "Item with id '%s' doesn't exist." [proto.Item.GetId i]) [],
      log ++ [⟨.info, "Update item request '%+v'.", none⟩], ?_⟩
    simp [service.ShopService.Update, repository.InMemoryRepo.Get, h, errors.Is,
      errors.isInChain, repository.NotFoundErr]
  · intro z h
    cases hm : s.ItemsRepo.items with
    | none => simp [repository.InMemoryRepo.lookup, hm] at h
    | some m =>
      obtain ⟨r1, h1, h2, h3⟩ := repository.Upsert_allocated s.ItemsRepo m i hm
      refine ⟨⟨r1⟩, log ++ [⟨.info, "Update item request '%+v'.", none⟩], ?_, h2, h3⟩
      simp [service.ShopService.Update, repository.InMemoryRepo.Get, h, errors.Is, h1]

/-- C13 on the repository of the tests: an update of the absent `id-3` is refused and
stores nothing, an update of `id-1` replaces the item and leaves `id-2` alone. -/
theorem Update_replaces_only_stored_items_witness :
    (∃ msg log1, service.ShopService.Update demo.Sprintf ⟨demo.repo⟩ [] (some demo.i3)
      = some ((none, some (.status .InvalidArgument msg)), ⟨demo.repo⟩, log1)) ∧
    (∃ s1 log1, service.ShopService.Update demo.Sprintf ⟨demo.repo⟩ [] (some demo.i1Updated)
        = some ((some demo.i1Updated, none), s1, log1) ∧
      s1.ItemsRepo.lookup "id-1" = some (some demo.i1Updated) ∧
      s1.ItemsRepo.lookup "id-2" = some (some demo.i2)) := by
  refine ⟨(Update_replaces_only_stored_items demo.Sprintf ⟨demo.repo⟩ [] (some demo.i3)).1
    (by decide), ?_⟩
  obtain ⟨s1, log1, h1, h2, h3⟩ :=
    (Update_replaces_only_stored_items demo.Sprintf ⟨demo.repo⟩ [] (some demo.i1Updated)).2
      (some demo.i1) (by decide)
  exact ⟨s1, log1, h1, h2, (h3 "id-2" (by decide)).trans (by decide)⟩
